import Mathlib

/-!
Verification development for the WhatsApp student-assistant repository.

The pure decision logic of the repository is embedded shallowly:
* `src/utils/message_helpers.py` (keyword configuration, classifier
  helper predicates, `extract_question_from_message`),
* `src/bot/message_processor.py` (`MessageProcessor.process_text_message`
  and its handler methods),
* `src/rag/rag_engine.py` (`RAGEngine.query`), and
* `src/bot/bot_manager.py` (`BotManager` registry operations), modelled
  as a state machine whose external events (thread liveness, clock) are
  oracle parameters.

Python strings are modelled as `List Char` (`Chars`), Python floats by
`ℚ` (every confidence constant of the program is an exact decimal and no
comparison in the program is decided by a rounding error), external
collaborators (FAISS retriever, OpenAI generation, SQL repository,
Selenium threads) by explicit environment records of functions.
-/

namespace WABot

/-- Python strings, modelled as their character lists. -/
abbrev Chars := List Char

/-- ASCII model of Python `str.lower()`. -/
def lowerChar (c : Char) : Char :=
  if 'A' ≤ c && c ≤ 'Z' then Char.ofNat (c.toNat + 32) else c

/-- `str.lower()`. -/
def pyLower (s : Chars) : Chars := s.map lowerChar

/-- The characters recognised by Python `str.strip()` / regex `\s` (ASCII model). -/
def isPySpace (c : Char) : Bool :=
  c = ' ' || c = '\t' || c = '\n' || c = '\r' || c = '\x0b' || c = '\x0c'

/-- `str.strip()`: drop whitespace from both ends. -/
def pyStrip (s : Chars) : Chars :=
  ((s.dropWhile isPySpace).reverse.dropWhile isPySpace).reverse

/-- Characters matched by regex `\w` (ASCII model). -/
def isWordChar (c : Char) : Bool := c.isAlpha || c.isDigit || c = '_'

/-- Helper for splitting a list into the maximal runs of characters
satisfying `p` (`acc` holds the reversed current run). -/
def runsAux (p : Char → Bool) : Chars → Chars → List Chars
  | [], acc => if acc.isEmpty then [] else [acc.reverse]
  | c :: rest, acc =>
    if p c then runsAux p rest (c :: acc)
    else if acc.isEmpty then runsAux p rest []
    else acc.reverse :: runsAux p rest []

/-- `re.findall(r'\w+', s)`: the maximal runs of word characters. -/
def wordRuns (s : Chars) : List Chars := runsAux isWordChar s []

/-- `str.split()` (no separator): the maximal runs of non-whitespace. -/
def pySplitWs (s : Chars) : List Chars := runsAux (fun c => !isPySpace c) s []

/-- Python `needle in hay` for strings: substring containment
(`needle` occurs contiguously in `hay`; the empty needle always matches). -/
def containsSub (needle : Chars) : Chars → Bool
  | [] => needle.isPrefixOf []
  | c :: rest => needle.isPrefixOf (c :: rest) || containsSub needle rest

/-- The keyword configuration of `MessageHelpers` (mapping category name to
phrase list), see `MessageHelpers._get_default_keywords`. -/
structure Keywords where
  greetings : List String
  acknowledgments : List String
  paypal : List String
  publications : List String
  remittance : List String
  fees : List String
  academic : List String
  greeting_prefixes : List String
  salutations : List String
  student_specific : List String
deriving Repr, DecidableEq

/-- The built-in default keyword set (`MessageHelpers._get_default_keywords`). -/
def defaultKeywords : Keywords where
  greetings :=
    ["hi", "hello", "hey", "good morning", "good afternoon",
     "good evening", "good night", "greetings", "namaste",
     "hola", "bonjour", "salut"]
  acknowledgments :=
    ["thanks", "thank you", "thx", "ty", "thanku", "tnx",
     "noted", "noted with thanks",
     "okay", "ok", "okey", "okie", "okk",
     "k", "kk", "kay",
     "alright", "all right", "rite",
     "got it", "gotcha", "understood",
     "cool", "fine", "great", "awesome", "perfect", "sure",
     "confirmed", "confirm", "done", "completed",
     "yep", "yes", "yeah", "ya", "yah"]
  paypal :=
    ["paypal", "pay pal", "paypal payment", "pay through paypal",
     "paypal option", "paypal link", "undertaking letter",
     "paypal account"]
  publications :=
    ["publication", "article", "research paper", "journal",
     "publish", "manuscript", "paper submission",
     "research publication", "journal article", "publish paper",
     "research work", "e-journal"]
  remittance :=
    ["remittance", "payment proof", "receipt", "transaction",
     "payment receipt", "bank transfer", "payment confirmation",
     "proof of payment", "payment slip"]
  fees :=
    ["fee", "fees", "payment", "invoice", "pay", "due",
     "balance", "amount", "bill", "tuition", "outstanding",
     "partial", "next installment", "fee structure"]
  academic :=
    ["course", "grade", "mark", "enrollment", "subject",
     "program", "academic", "mentor", "block", "test", "exam",
     "status", "duration", "study material", "assignment"]
  greeting_prefixes :=
    ["hi", "hello", "hey", "good morning", "good afternoon",
     "good evening", "dear", "respected", "sir", "madam"]
  salutations :=
    ["sir", "madam", "ma\x27am", "mr", "mrs", "ms", "dr", "prof"]
  student_specific :=
    ["my fee", "my payment", "my invoice", "my balance", "my due",
     "my course", "my grade", "my marks", "my status", "my enrollment",
     "application number", "student id", "my account"]

/-- `MessageHelpers.is_pure_greeting`: ≤ 3 word tokens, contains a configured
greeting phrase, and no `?` in the message. -/
def is_pure_greeting (kw : Keywords) (message : Chars) : Bool :=
  let message_lower := pyStrip (pyLower message)
  let words := wordRuns message_lower
  decide (words.length ≤ 3) &&
    kw.greetings.any (fun g => containsSub g.data message_lower) &&
    !(message.contains '?')

/-- `MessageHelpers.is_satisfied_response`: whitespace word count ≤ 3 and
contains a configured acknowledgment phrase. -/
def is_satisfied_response (kw : Keywords) (message : Chars) : Bool :=
  let message_lower := pyStrip (pyLower message)
  if (pySplitWs message).length ≤ 3 then
    kw.acknowledgments.any (fun a => containsSub a.data message_lower)
  else
    false

/-- `MessageHelpers.is_paypal_query`: substring match on the lowered message. -/
def is_paypal_query (kw : Keywords) (message : Chars) : Bool :=
  kw.paypal.any (fun p => containsSub p.data (pyLower message))

/-- `MessageHelpers.is_publication_query`. -/
def is_publication_query (kw : Keywords) (message : Chars) : Bool :=
  kw.publications.any (fun p => containsSub p.data (pyLower message))

/-- `MessageHelpers.is_remittance_query`. -/
def is_remittance_query (kw : Keywords) (message : Chars) : Bool :=
  kw.remittance.any (fun p => containsSub p.data (pyLower message))

/-- The keyword list hard-coded in `MessageProcessor._is_student_specific_query`
(the processor does not read it from the configuration). -/
def processorStudentKeywords : List String :=
  ["my fee", "my payment", "my invoice", "my balance", "my due",
   "my course", "my grade", "my marks", "my status", "my enrollment",
   "application number", "student id", "my account"]

/-- `MessageProcessor._is_student_specific_query`. -/
def is_student_specific_query (message : Chars) : Bool :=
  processorStudentKeywords.any (fun p => containsSub p.data (pyLower message))

/-! ### `MessageHelpers.extract_question_from_message`

The function performs two `re.sub` calls (both `IGNORECASE`) and a
whitespace collapse:
1. `^(p1|p2|…)\s*[,.]?\s*` → `''` over the greeting prefixes (anchored, so
   at most one replacement; regex alternation picks the first alternative
   that matches, and the trailing `\s*[,.]?\s*` never fails, so no
   backtracking into the alternation occurs);
2. `\b(s1|s2|…)\b[,.]?\s*` → `''` over the salutation tokens (global
   left-to-right replacement with word-boundary assertions);
3. `\s+` → `' '`, then `strip()`; if the result is empty the original
   message is returned.
-/

/-- Case-insensitive prefix test (model of matching a literal alternative
under `re.IGNORECASE`). -/
def ciPrefixOf (pat s : Chars) : Bool :=
  pyLower (s.take pat.length) == pyLower pat

/-- `\b` between two adjacent characters (string edges count as non-word). -/
def isBoundary (a b : Option Char) : Bool :=
  (match a with | none => false | some c => isWordChar c) !=
    (match b with | none => false | some c => isWordChar c)

/-- Number of characters consumed by `\s*[,.]?\s*` starting at `s`. -/
def eatSpacesComma (s : Chars) : Nat :=
  let s1 := s.dropWhile isPySpace
  let k1 := s.length - s1.length
  match s1 with
  | c :: rest =>
    if c = ',' || c = '.' then k1 + 1 + (rest.takeWhile isPySpace).length
    else k1
  | [] => k1

/-- The first greeting-prefix substitution: if some alternative matches at
the start of the message (first alternative in configuration order wins),
remove it together with `\s*[,.]?\s*`. -/
def stripGreetingPfx (prefixes : List String) (m : Chars) : Chars :=
  match prefixes.findSome?
      (fun p => if ciPrefixOf p.data m then some p.data.length else none) with
  | some k => (m.drop k).drop (eatSpacesComma (m.drop k))
  | none => m

/-- At a position in the scan (`prev` = preceding character), the number of
characters consumed by a match of `\b(s1|…)\b[,.]?\s*`, if any alternative
matches (first alternative in configuration order wins; an alternative also
needs the trailing word boundary to hold, otherwise the next one is tried).
Only nonempty alternatives are considered, so a match consumes ≥ 1
character (all configured salutation phrases are nonempty). -/
def salMatchLen (sals : List Chars) (prev : Option Char) (l : Chars) : Option Nat :=
  if isBoundary prev l.head? then
    sals.findSome? (fun sal =>
      if sal.isEmpty then none
      else if ciPrefixOf sal l &&
          isBoundary ((l.take sal.length).getLast?) ((l.drop sal.length).head?) then
        some (sal.length + eatSpacesComma (l.drop sal.length))
      else none)
  else none

theorem salMatchLen_pos (sals : List Chars) (prev : Option Char) (l : Chars)
    (k : Nat) (h : salMatchLen sals prev l = some k) : 1 ≤ k := by
  unfold salMatchLen at h
  split at h
  · obtain ⟨sal, -, heq⟩ := List.exists_of_findSome?_eq_some h
    revert heq
    split
    · intro heq; exact absurd heq (by simp)
    · split
      · intro heq
        simp only [Option.some.injEq] at heq
        rcases sal with _ | ⟨c, cs⟩
        · simp_all
        · simp only [List.length_cons] at heq; omega
      · intro heq; exact absurd heq (by simp)
  · exact absurd h (by simp)

/-- The global salutation substitution (second `re.sub`): scan left to
right; on a match, skip the consumed characters and continue after them
(the character preceding the new position is the last consumed one);
otherwise emit the character and advance.  The `fuel` argument makes the
recursion structural; a match consumes at least one character
(`salMatchLen_pos`), so fuel `l.length` (supplied by the wrapper) never
runs out. -/
def removeSalsAux (sals : List Chars) : Nat → Option Char → Chars → Chars
  | 0, _, l => l
  | _ + 1, _, [] => []
  | fuel + 1, prev, c :: rest =>
    match salMatchLen sals prev (c :: rest) with
    | some k =>
      removeSalsAux sals fuel ((c :: rest).take k).getLast? ((c :: rest).drop k)
    | none => c :: removeSalsAux sals fuel (some c) rest

/-- The global salutation substitution over a whole string. -/
def removeSalutations (sals : List Chars) (prev : Option Char) (l : Chars) : Chars :=
  removeSalsAux sals l.length prev l

/-- Helper for `collapseWs`: `inRun` records whether the previous character
was whitespace (whose run already emitted its single space). -/
def collapseWsAux : Bool → Chars → Chars
  | _, [] => []
  | inRun, c :: rest =>
    if isPySpace c then
      if inRun then collapseWsAux true rest
      else ' ' :: collapseWsAux true rest
    else c :: collapseWsAux false rest

/-- `re.sub(r'\s+', ' ', s)`: collapse every whitespace run to one space. -/
def collapseWs (s : Chars) : Chars := collapseWsAux false s

/-- `MessageHelpers.extract_question_from_message`: strip a leading
configured greeting prefix (with optional trailing comma/period), remove
embedded salutation tokens, collapse whitespace; fall back to the original
message if the result is empty.  (`'|'.join` of an empty phrase list gives
an empty pattern string, which is falsy, so the corresponding substitution
is skipped.) -/
def extract_question_from_message (kw : Keywords) (message : Chars) : Chars :=
  let c1 :=
    if kw.greeting_prefixes.isEmpty then message
    else stripGreetingPfx kw.greeting_prefixes message
  let c2 :=
    if kw.salutations.isEmpty then c1
    else removeSalutations (kw.salutations.map (·.data)) none c1
  let c3 := pyStrip (collapseWs c2)
  if c3.isEmpty then message else c3

/-! ### `RAGEngine.query` (src/rag/rag_engine.py)

External collaborators are abstracted as an environment of functions:
`retrieved` is the FAISS `similarity_score_threshold` retriever (k = 4,
threshold 0.65 — the threshold filter happens inside the vector store, so
`retrieved q` is the list of chunks that survived it), `qaSourceDocs` the
plain similarity retriever (k = 4) inside the `RetrievalQA` chain, and
`qaAnswer` the generation model's answer (a function of salutation and
question; repeated calls may be modelled by different environments).
`Python float` arithmetic is modelled by `ℚ`; the only confidence values
the code produces are exact decimals and no comparison is decided by a
rounding error.  `list(set(…))` is modelled as first-occurrence
deduplication (string hashing is fixed within one process, so the order is
deterministic across repeated calls). -/

/-- A retrieved chunk's metadata (`Document.metadata`). -/
structure Doc where
  question : String
  category : String
  interface : String
deriving Repr, DecidableEq

/-- The external collaborators of `RAGEngine.query`. -/
structure RagEnv where
  storeInit : Bool
  retrieved : String → List Doc
  qaAnswer : String → String → String
  qaSourceDocs : String → List Doc

/-- The confidence formula of `RAGEngine.query`:
`min(len(relevant_docs) / 4.0, 1.0) * 0.9`. -/
def ragConfidence (n : Nat) : ℚ := min ((n : ℚ) / 4) 1 * (9 / 10)

/-- Helper for `dedupFirst` (`seen` holds the strings already emitted). -/
def dedupFirstAux : List String → List String → List String
  | [], _ => []
  | x :: xs, seen =>
    if seen.contains x then dedupFirstAux xs seen
    else x :: dedupFirstAux xs (x :: seen)

/-- First-occurrence deduplication (model of `list(set(…))`). -/
def dedupFirst (l : List String) : List String := dedupFirstAux l []

/-- `RAGEngine.query(question, salutation, interface)`, returning
`(answer, confidence, source_questions)`. -/
def ragQuery (env : RagEnv) (question salutation : String)
    (iface : Option String) : String × ℚ × List String :=
  if !env.storeInit then
    ("I\x27m having technical difficulties. Please try again.", 0, [])
  else
    let relevant_docs := env.retrieved question
    if relevant_docs.isEmpty then
      (salutation ++
        ", I couldn\x27t find specific information about your query. Could you rephrase or provide more details?",
        0, [])
    else
      let relevant_docs2 :=
        match iface with
        | some i =>
          relevant_docs.filter (fun (d : Doc) => pyLower d.interface.data == pyLower i.data)
        | none => relevant_docs
      let answer := env.qaAnswer salutation question
      let source_docs := env.qaSourceDocs question
      let confidence := ragConfidence relevant_docs2.length
      let source_questions :=
        (dedupFirst ((source_docs.map (fun d => d.question)).filter
          (fun q => q ≠ ""))).take 3
      (answer, confidence, source_questions)

/-! ### `MessageProcessor` (src/bot/message_processor.py) -/

/-- The dictionary returned by every `MessageProcessor` handler. -/
structure ConvResult where
  response : String
  message_type : String
  confidence : ℚ
  sources : List String
  category : String
  requires_followup : Bool := false
deriving Repr, DecidableEq

/-- The external collaborators of `MessageProcessor`: the RAG engine, the
student repository (`fetch_invoice_data` / `fetch_academic_data`,
returning `None` when no record exists), the two templated generation
calls, and the index drawn by `random.choice` (modelled as choosing
position `choice % len` of the candidate list). -/
structure ProcEnv where
  rag : RagEnv
  invoiceData : String → Option String
  academicData : String → Option String
  genInvoice : String → String → String → String
  genAcademic : String → String → String → String
  choice : Nat

/-- `random.choice`: pick an element of a nonempty list. -/
def randChoice (i : Nat) (l : List String) : String := l.getD (i % l.length) ""

/-- The three greeting phrasings of `MessageProcessor._handle_greeting`. -/
def greetingChoices (salutation : String) : List String :=
  [salutation ++ ", hello! How can I assist you today?",
   "Hi " ++ salutation ++ "! I\x27m here to help with your queries.",
   "Greetings " ++ salutation ++ "! What can I do for you?"]

/-- `MessageProcessor._handle_greeting`. -/
def handle_greeting (env : ProcEnv) (salutation : String) : ConvResult where
  response := randChoice env.choice (greetingChoices salutation)
  message_type := "greeting"
  confidence := 1
  sources := []
  category := "greeting"

/-- The three acknowledgment phrasings of
`MessageProcessor._handle_acknowledgment`. -/
def ackChoices (salutation : String) : List String :=
  [salutation ++ ", glad I could help! Do you have any other questions?",
   "You\x27re welcome " ++ salutation ++ "! Feel free to ask if you need anything else.",
   salutation ++ ", happy to assist! Let me know if there\x27s anything more."]

/-- `MessageProcessor._handle_acknowledgment`. -/
def handle_acknowledgment (env : ProcEnv) (salutation : String) : ConvResult where
  response := randChoice env.choice (ackChoices salutation)
  message_type := "acknowledgment"
  confidence := 1
  sources := []
  category := "post_interaction"

/-- `MessageProcessor._handle_paypal_query`. -/
def handle_paypal_query (salutation : String) : ConvResult where
  response := salutation ++
    ", to proceed with PayPal payment, reply with:\n\n1 - I already have the undertaking letter\n2 - Send me the undertaking letter template\n\nPlease reply with 1 or 2."
  message_type := "paypal_query"
  confidence := 1
  sources := []
  category := "payment"
  requires_followup := true

/-- The fixed contact-information text of
`MessageProcessor._handle_publication_query`. -/
def publicationFixedText (salutation : String) : String :=
  salutation ++
    ", for queries related to publications or research articles, please contact our E-Journal Executive:\n\n📧 Email: sabitha.k@tauedu.org or ejournal.assist@tau.edu.gy\n📱 WhatsApp:\n  • Public Health, Management: +91 7397735325\n  • Academic Research, Medicine: +91 9500108397"

/-- `MessageProcessor._handle_publication_query`: fixed contact text, with
the secondary FAQ lookup's answer appended when its confidence clears
0.65; confidence fixed at 1.0; sources are those of the secondary
lookup. -/
def handle_publication_query (env : ProcEnv) (salutation message : String) : ConvResult :=
  match ragQuery env.rag message salutation none with
  | (answer, confidence, sources) =>
    let faq_addition := if confidence ≥ 13 / 20 then "\n\n" ++ answer else ""
    { response := publicationFixedText salutation ++ faq_addition
      message_type := "publication_query"
      confidence := 1
      sources := sources
      category := "publication" }

/-- `MessageProcessor._handle_remittance_query`. -/
def handle_remittance_query (salutation : String) : ConvResult where
  response := salutation ++
    ", thank you for sharing the remittance copy. I will forward it to our Finance team for verification and mapping. You can check the status in the CMS portal within 3-10 business days."
  message_type := "remittance_confirmation"
  confidence := 1
  sources := []
  category := "finance"

/-- The context-enhanced query built by `MessageProcessor._handle_faq_query`
(`chat_context` is falsy for `None` and for the empty list; only the last
three turns are kept). -/
def enhancedQuery (message : String) (chat_context : List (String × String)) : String :=
  if chat_context.isEmpty then message
  else
    "Context:\n" ++
      String.intercalate "\n"
        ((chat_context.drop (chat_context.length - 3)).map
          (fun m => m.1 ++ ": " ++ m.2)) ++
      "\n\nCurrent question: " ++ message

/-- `MessageProcessor._handle_faq_query`: optional chat-context expansion
(last 3 turns), RAG query, confidence-gated message type, and an additive
hint appended below 0.65. -/
def handle_faq_query (env : ProcEnv) (message salutation : String)
    (chat_context : List (String × String)) : ConvResult :=
  match ragQuery env.rag (enhancedQuery message chat_context) salutation none with
  | (answer, confidence, sources) =>
    if confidence ≥ 3 / 4 then
      { response := answer, message_type := "faq_answer_high_confidence"
        confidence := confidence, sources := sources, category := "general" }
    else if confidence ≥ 13 / 20 then
      { response := answer, message_type := "faq_answer"
        confidence := confidence, sources := sources, category := "general" }
    else
      { response := answer ++
          "\n\nIf this doesn\x27t fully answer your question, please provide more details or contact support."
        message_type := "low_confidence_answer"
        confidence := confidence, sources := sources, category := "general" }

/-- The fees / academic sub-intent keyword lists hard-coded in
`MessageProcessor._handle_student_query`. -/
def feesKeywords : List String := ["fee", "payment", "invoice", "due", "balance", "pay"]

/-- See `feesKeywords`. -/
def academicKeywords : List String :=
  ["course", "grade", "mark", "enrollment", "subject", "program"]

/-- `MessageProcessor._handle_student_query`. -/
def handle_student_query (env : ProcEnv) (kw : Keywords)
    (message contact_id salutation : String) : ConvResult :=
  let question := String.mk (extract_question_from_message kw message.data)
  let is_fees := feesKeywords.any (fun k => containsSub k.data (pyLower question.data))
  let is_academic :=
    academicKeywords.any (fun k => containsSub k.data (pyLower question.data))
  if is_fees then
    match env.invoiceData contact_id with
    | some invoice_data =>
      { response := env.genInvoice invoice_data question salutation
        message_type := "invoice_response", confidence := 1
        sources := ["Student Invoice Database"], category := "fees" }
    | none =>
      match ragQuery env.rag question salutation none with
      | (answer, confidence, sources) =>
        let answer :=
          if confidence < 13 / 20 then
            salutation ++
              ", I couldn\x27t find invoice details for your account. Please provide your application number or contact finance support."
          else answer
        { response := answer, message_type := "fees_general"
          confidence := confidence, sources := sources, category := "fees" }
  else if is_academic then
    match env.academicData contact_id with
    | some academic_data =>
      { response := env.genAcademic academic_data question salutation
        message_type := "academic_response", confidence := 1
        sources := ["Student Academic Database"], category := "academic" }
    | none =>
      { response := salutation ++
          ", I couldn\x27t find academic data for your account. Please provide your application number."
        message_type := "data_not_found", confidence := 0
        sources := [], category := "academic" }
  else
    handle_faq_query env question salutation []

/-- `MessageProcessor.process_text_message`: the fixed-priority dispatch
over the cleaned (`strip`ped) message.  (The surrounding `try/except`
that maps an exception to a generic error result is not modelled: the
embedded branches are total.) -/
def process_text_message (env : ProcEnv) (kw : Keywords)
    (message contact_id _contact_name salutation : String)
    (chat_context : List (String × String)) : ConvResult :=
  let message_clean := String.mk (pyStrip message.data)
  if is_pure_greeting kw message_clean.data then
    handle_greeting env salutation
  else if is_satisfied_response kw message_clean.data then
    handle_acknowledgment env salutation
  else if is_paypal_query kw message_clean.data then
    handle_paypal_query salutation
  else if is_publication_query kw message_clean.data then
    handle_publication_query env salutation message_clean
  else if is_remittance_query kw message_clean.data then
    handle_remittance_query salutation
  else if is_student_specific_query message_clean.data then
    handle_student_query env kw message_clean contact_id salutation
  else
    handle_faq_query env message_clean salutation chat_context

/-- A fixed-priority rule chain: the first rule whose guard accepts the
input determines the output; later rules are not evaluated. -/
def firstMatch {α β : Type _} : List ((α → Bool) × (α → β)) → (α → β) → α → β
  | [], dflt, x => dflt x
  | (g, h) :: rest, dflt, x => if g x then h x else firstMatch rest dflt x

/-! ### `BotManager` (src/bot/bot_manager.py)

The manager is modelled as a state machine.  Python dictionaries are
insertion-ordered association lists; heap-allocated objects that are
shared by reference (`threading.Event`s, `WhatsAppBot` instances, thread
handles) live in uid-keyed heaps so that aliasing is preserved across
re-registration.  Manager calls are atomic steps (each method body holds
the GIL between its dictionary operations); the worker threads' externally
scheduled progress (driver initialisation, thread termination) and the
outcome of `thread.join(timeout)` are separate oracle events. -/

/-- One entry of the bounded per-bot log. -/
structure LogEntry where
  timestamp : String
  level : String
  message : String
deriving Repr, DecidableEq

/-- The per-bot status record created by the `defaultdict` factory in
`BotManager.__init__`. -/
structure BotStatus where
  name : String
  status : String
  start_time : Option Nat
  stop_time : Option Nat
  processed_count : Nat
  unread_count : Nat
  logs : List LogEntry
deriving Repr, DecidableEq

/-- The `defaultdict` default record: `Stopped`, zero counters, empty log. -/
def defaultStatus : BotStatus where
  name := ""
  status := "Stopped"
  start_time := none
  stop_time := none
  processed_count := 0
  unread_count := 0
  logs := []

/-- A `WhatsAppBot` instance: its name, its own stop event (by reference),
and whether `self.driver` has been assigned by the worker yet
(`__init__` sets it to `None`; `_initialize_driver` runs on the worker
thread). -/
structure BotInst where
  bot_name : String
  user_data_path : String
  eventId : Nat
  driverInit : Bool
deriving Repr, DecidableEq

/-- Association-list read (Python `d[k]` / `d.get(k)`). -/
def alGet {α β : Type _} [DecidableEq α] : List (α × β) → α → Option β
  | [], _ => none
  | (k', v) :: rest, k => if k' = k then some v else alGet rest k

/-- Association-list read with default. -/
def alGetD {α β : Type _} [DecidableEq α] (l : List (α × β)) (k : α) (d : β) : β :=
  (alGet l k).getD d

/-- Association-list write (Python `d[k] = v`: update in place, else append). -/
def alSet {α β : Type _} [DecidableEq α] : List (α × β) → α → β → List (α × β)
  | [], k, v => [(k, v)]
  | (k', v') :: rest, k, v =>
    if k' = k then (k, v) :: rest else (k', v') :: alSet rest k v

/-- Association-list delete (Python `del d[k]`; dictionary keys are unique,
so dropping every binding of `k` coincides with deleting the one entry). -/
def alErase {α β : Type _} [DecidableEq α] (l : List (α × β)) (k : α) : List (α × β) :=
  l.filter (fun p => p.1 ≠ k)

/-- The full manager state: the four dictionaries of `BotManager` plus the
shared heaps of events, bot instances and threads, a uid supply, and a
logical clock standing for `datetime.now()`. -/
structure MState where
  time : Nat
  nextUid : Nat
  eventHeap : List (Nat × Bool)
  botHeap : List (Nat × BotInst)
  threadAlive : List (Nat × Bool)
  threadBot : List (Nat × Nat)
  bots : List (String × Nat)
  threads : List (String × Nat)
  stopEvents : List (String × Nat)
  statuses : List (String × BotStatus)
deriving Repr, DecidableEq

/-- The state built by `BotManager.__init__`. -/
def initMState : MState where
  time := 0
  nextUid := 0
  eventHeap := []
  botHeap := []
  threadAlive := []
  threadBot := []
  bots := []
  threads := []
  stopEvents := []
  statuses := []

/-- `WhatsAppBot.is_running`: `self.driver is not None and not
self.stop_event.is_set()`. -/
def bot_is_running (s : MState) (b : BotInst) : Bool :=
  b.driverInit && !(alGetD s.eventHeap b.eventId false)

/-- The `bot_name in self.bots and self.bots[bot_name].is_running()` test
guarding `BotManager.start_bot`. -/
def start_guard (s : MState) (bot_name : String) : Bool :=
  match alGet s.bots bot_name with
  | some buid =>
    match alGet s.botHeap buid with
    | some b => bot_is_running s b
    | none => false
  | none => false

/-- `BotManager.start_bot`: fail if the registered bot reports
`is_running()`; otherwise create a fresh stop event, reset the status
record (`Starting`, fresh start time, zeroed counter), construct the bot
with `driver = None`, spawn its worker thread, and register event, bot and
thread under the name (overwriting stale entries). -/
def start_bot (s : MState) (bot_name user_data_path : String) : Bool × MState :=
  if start_guard s bot_name then (false, s)
  else
    let eid := s.nextUid
    let buid := s.nextUid + 1
    let tuid := s.nextUid + 2
    let st0 := alGetD s.statuses bot_name defaultStatus
    let st1 := { st0 with
      name := bot_name
      status := "Starting"
      start_time := some s.time
      stop_time := none
      processed_count := 0 }
    let bot : BotInst :=
      { bot_name := bot_name, user_data_path := user_data_path
        eventId := eid, driverInit := false }
    (true,
      { s with
        time := s.time + 1
        nextUid := s.nextUid + 3
        eventHeap := alSet s.eventHeap eid false
        stopEvents := alSet s.stopEvents bot_name eid
        statuses := alSet s.statuses bot_name st1
        botHeap := alSet s.botHeap buid bot
        bots := alSet s.bots bot_name buid
        threadAlive := alSet s.threadAlive tuid true
        threadBot := alSet s.threadBot tuid buid
        threads := alSet s.threads bot_name tuid })

/-- The success tail of `BotManager.stop_bot`: stamp `Stopped` and the stop
time, release the bot and thread handles. -/
def stopFinish (s : MState) (bot_name : String) : Bool × MState :=
  let st0 := alGetD s.statuses bot_name defaultStatus
  let st1 := { st0 with status := "Stopped", stop_time := some s.time }
  (true,
    { s with
      time := s.time + 1
      statuses := alSet s.statuses bot_name st1
      bots := alErase s.bots bot_name
      threads := alErase s.threads bot_name })

/-- `BotManager.stop_bot`: fail when the name is unknown to `self.bots`;
otherwise set the stop event, join the thread for up to the timeout
(`exitsInTime` is the oracle for whether the worker exits within it), and
either report failure with all bookkeeping retained or finish the stop. -/
def stop_bot (s : MState) (bot_name : String) (exitsInTime : Bool) : Bool × MState :=
  if (alGet s.bots bot_name).isNone then (false, s)
  else
    let s1 :=
      match alGet s.stopEvents bot_name with
      | some eid => { s with eventHeap := alSet s.eventHeap eid true }
      | none => s
    match alGet s1.threads bot_name with
    | some tuid =>
      let s2 :=
        if exitsInTime then { s1 with threadAlive := alSet s1.threadAlive tuid false }
        else s1
      if alGetD s2.threadAlive tuid false then (false, s2)
      else stopFinish s2 bot_name
    | none => stopFinish s1 bot_name

/-- `BotManager.get_bot_status`: `self.bot_statuses.get(bot_name, {})`
(a plain `get`, which does **not** trigger the `defaultdict` factory;
`none` models the empty dictionary). -/
def get_bot_status (s : MState) (bot_name : String) : Option BotStatus :=
  alGet s.statuses bot_name

/-- `BotManager.get_all_statuses`: a snapshot of every record. -/
def get_all_statuses (s : MState) : List (String × BotStatus) := s.statuses

/-- `BotManager.add_bot_log`: append to the (`defaultdict`-created) log,
then `pop(0)` once if the length exceeds 50. -/
def add_bot_log (s : MState) (bot_name message level ts : String) : MState :=
  let st0 := alGetD s.statuses bot_name defaultStatus
  let logs1 := st0.logs ++ [{ timestamp := ts, level := level, message := message }]
  let logs2 := if logs1.length > 50 then logs1.drop 1 else logs1
  { s with statuses := alSet s.statuses bot_name { st0 with logs := logs2 } }

/-- `BotManager.update_bot_status`: set the status field and optionally the
unread count (both through the `defaultdict`). -/
def update_bot_status (s : MState) (bot_name status : String)
    (unread_count : Option Nat) : MState :=
  let st0 := alGetD s.statuses bot_name defaultStatus
  let st1 := { st0 with status := status }
  let st2 :=
    match unread_count with
    | some u => { st1 with unread_count := u }
    | none => st1
  { s with statuses := alSet s.statuses bot_name st2 }

/-- `BotManager.increment_processed_count`. -/
def increment_processed_count (s : MState) (bot_name : String) : MState :=
  let st0 := alGetD s.statuses bot_name defaultStatus
  { s with
    statuses := alSet s.statuses bot_name
      { st0 with processed_count := st0.processed_count + 1 } }

/-- Worker-thread event: `_initialize_driver` assigns `self.driver` on the
worker's own bot object. -/
def worker_sets_driver (s : MState) (tuid : Nat) : MState :=
  match alGet s.threadBot tuid with
  | some buid =>
    match alGet s.botHeap buid with
    | some b => { s with botHeap := alSet s.botHeap buid { b with driverInit := true } }
    | none => s
  | none => s

/-- Worker-thread event: the thread terminates. -/
def worker_exits (s : MState) (tuid : Nat) : MState :=
  { s with threadAlive := alSet s.threadAlive tuid false }

/-- The events of the lifecycle model: manager calls plus the worker
threads' externally scheduled progress. -/
inductive MOp where
  | start (bot_name user_data_path : String)
  | stop (bot_name : String) (exitsInTime : Bool)
  | addLog (bot_name message level ts : String)
  | updateStatus (bot_name status : String) (unread_count : Option Nat)
  | incProcessed (bot_name : String)
  | setDriver (tuid : Nat)
  | threadExit (tuid : Nat)
deriving Repr, DecidableEq

/-- One transition of the lifecycle model. -/
def stepOp (s : MState) : MOp → MState
  | .start n p => (start_bot s n p).2
  | .stop n e => (stop_bot s n e).2
  | .addLog n m l t => add_bot_log s n m l t
  | .updateStatus n st u => update_bot_status s n st u
  | .incProcessed n => increment_processed_count s n
  | .setDriver t => worker_sets_driver s t
  | .threadExit t => worker_exits s t

/-- Run a sequence of events from a state. -/
def runOps (s : MState) (ops : List MOp) : MState := ops.foldl stepOp s

/-- The live worker threads currently owning identity `id`: alive threads
whose bot instance carries that bot name. -/
def liveWorkers (s : MState) (id : String) : List Nat :=
  s.threadBot.filterMap (fun p =>
    if alGetD s.threadAlive p.1 false &&
        ((alGet s.botHeap p.2).map (fun b => b.bot_name) == some id) then
      some p.1
    else none)

/-! ### Association-list lemmas -/

theorem alGet_alSet_self {α β : Type _} [DecidableEq α] (l : List (α × β)) (k : α) (v : β) :
    alGet (alSet l k v) k = some v := by
  induction l with
  | nil => simp [alGet, alSet]
  | cons p rest ih =>
    obtain ⟨k', v'⟩ := p
    by_cases h : k' = k <;> simp [alGet, alSet, h, ih]

theorem alGet_alSet_ne {α β : Type _} [DecidableEq α] (l : List (α × β)) (k k' : α) (v : β)
    (h : k' ≠ k) : alGet (alSet l k v) k' = alGet l k' := by
  have h' : ¬ k = k' := fun he => h he.symm
  induction l with
  | nil => simp [alGet, alSet, h']
  | cons p rest ih =>
    obtain ⟨k'', v''⟩ := p
    by_cases h2 : k'' = k
    · subst h2
      simp [alGet, alSet, h']
    · by_cases h3 : k'' = k' <;> simp [alGet, alSet, h, h', h2, h3, ih]

theorem alGetD_alSet {α β : Type _} [DecidableEq α] (l : List (α × β)) (k k' : α) (v d : β) :
    alGetD (alSet l k v) k' d = if k' = k then v else alGetD l k' d := by
  by_cases h : k' = k
  · subst h; simp [alGetD, alGet_alSet_self]
  · simp [alGetD, alGet_alSet_ne _ _ _ _ h, h]

theorem alGet_alErase_self {α β : Type _} [DecidableEq α] (l : List (α × β)) (k : α) :
    alGet (alErase l k) k = none := by
  induction l with
  | nil => simp [alGet, alErase]
  | cons p rest ih =>
    obtain ⟨k', v'⟩ := p
    by_cases h : k' = k <;> simp_all [alGet, alErase, List.filter]

/-! ### Shared concrete environments -/

/-- A trivial environment: initialised store, empty retrieval results,
constant generation. -/
def constRagEnv : RagEnv where
  storeInit := true
  retrieved := fun _ => []
  qaAnswer := fun _ _ => ""
  qaSourceDocs := fun _ => []

/-- A trivial processor environment built on `constRagEnv`. -/
def constProcEnv : ProcEnv where
  rag := constRagEnv
  invoiceData := fun _ => none
  academicData := fun _ => none
  genInvoice := fun _ _ _ => ""
  genAcademic := fun _ _ _ => ""
  choice := 0

/-! ## Claims -/

/-- Claim C3 (code bug): `extract_question_from_message` is **not**
idempotent.  On `"hi hi there"` the anchored greeting-prefix substitution
strips one leading `"hi"` per application: the first application yields
`"hi there"`, and re-applying the function to that output yields
`"there"`, a different string — contradicting the specified idempotence
(`extract_question(extract_question(x)) == extract_question(x)`). -/
theorem extract_question_not_idempotent :
    extract_question_from_message defaultKeywords
        (extract_question_from_message defaultKeywords ("hi hi there").data) ≠
      extract_question_from_message defaultKeywords ("hi hi there").data ∧
    extract_question_from_message defaultKeywords ("hi hi there").data =
      ("hi there").data ∧
    extract_question_from_message defaultKeywords
        (extract_question_from_message defaultKeywords ("hi hi there").data) =
      ("there").data := by decide

/-- Claim C4 (code bug): the at-most-one-live-worker-per-identity
invariant is violated.  `start_bot` only refuses when the registered bot
reports `is_running()`, which is `False` until the worker thread assigns
`self.driver`; so a second `start_bot("A")` issued before the first
worker initialises its driver succeeds and spawns a second live thread
for `"A"` (thread uids 2 and 5 both alive and owning `"A"`).  For
contrast, the final conjuncts show that once the worker has set its
driver, a repeated `start_bot` does return `False` and leaves the state
unchanged. -/
theorem start_bot_double_start_two_live_workers :
    (start_bot initMState ("A") ("p1")).1 = true ∧
    (start_bot (start_bot initMState ("A") ("p1")).2 ("A") ("p2")).1 = true ∧
    liveWorkers (start_bot (start_bot initMState ("A") ("p1")).2 ("A") ("p2")).2 ("A") = [2, 5] ∧
    (start_bot (worker_sets_driver (start_bot initMState ("A") ("p1")).2 2) ("A") ("p3")).1 = false ∧
    (start_bot (worker_sets_driver (start_bot initMState ("A") ("p1")).2 2) ("A") ("p3")).2 =
      worker_sets_driver (start_bot initMState ("A") ("p1")).2 2 := by decide

/-- A document whose metadata question is `"Q1"` (used to exhibit a
nonempty secondary-lookup source list). -/
def c6Doc : Doc where
  question := "Q1"
  category := "general"
  interface := "general"

/-- An environment whose retriever returns `c6Doc`. -/
def c6ProcEnv : ProcEnv :=
  { constProcEnv with
    rag :=
      { storeInit := true
        retrieved := fun _ => [c6Doc]
        qaAnswer := fun _ _ => "ans"
        qaSourceDocs := fun _ => [c6Doc] } }

/-- Claim C6 counterexample: a message classified as publication-intent
whose result carries the secondary lookup's **nonempty** source list
(`["Q1"]`), contradicting "empty source list"; confidence is 1 as
claimed. -/
theorem publication_query_nonempty_sources :
    (process_text_message c6ProcEnv defaultKeywords ("article") ("id") ("nm")
        ("Student") []).category = "publication" ∧
    (process_text_message c6ProcEnv defaultKeywords ("article") ("id") ("nm")
        ("Student") []).confidence = 1 ∧
    (process_text_message c6ProcEnv defaultKeywords ("article") ("id") ("nm")
        ("Student") []).sources = ["Q1"] ∧
    (["Q1"] : List String) ≠ [] := by decide

/-- Claim C6 (amended): for every publication-intent message the result
has confidence exactly 1.0 and carries the **secondary general-FAQ
lookup's source list** (not an empty one), and the fixed
contact-information text has that lookup's answer appended if and only if
the lookup's confidence is at least 0.65. -/
theorem publication_query_result (env : ProcEnv) (sal msg : String) :
    handle_publication_query env sal msg =
      { response := publicationFixedText sal ++
          (if (ragQuery env.rag msg sal none).2.1 ≥ 13 / 20 then
            "\n\n" ++ (ragQuery env.rag msg sal none).1
          else "")
        message_type := "publication_query"
        confidence := 1
        sources := (ragQuery env.rag msg sal none).2.2
        category := "publication" } := by
  unfold handle_publication_query
  rcases h : ragQuery env.rag msg sal none with ⟨a, c, srcs⟩
  simp [h]

/-- Claim C10: for an identity with no status record, `get_bot_status`
returns the empty record (`none`) and creates nothing, while
`add_bot_log`, `update_bot_status` and `increment_processed_count` each
create the `defaultdict` default record (`Stopped`, zero counters, empty
log) and apply their own single mutation to it; the result appears in
`get_all_statuses`, and none of the operations signals an
unknown-identity failure (they are total). -/
theorem untouched_identity_default_records (s : MState) (id m l ts st : String)
    (u : Option Nat) (h : alGet s.statuses id = none) :
    get_bot_status s id = none ∧
    alGet (get_all_statuses (add_bot_log s id m l ts)) id =
      some { defaultStatus with
               logs := [{ timestamp := ts, level := l, message := m }] } ∧
    alGet (get_all_statuses (update_bot_status s id st u)) id =
      some (match u with
        | some n => { defaultStatus with status := st, unread_count := n }
        | none => { defaultStatus with status := st }) ∧
    alGet (get_all_statuses (increment_processed_count s id)) id =
      some { defaultStatus with processed_count := 1 } := by
  have hd : alGetD s.statuses id defaultStatus = defaultStatus := by
    simp [alGetD, h]
  refine ⟨h, ?_, ?_, ?_⟩
  · simp only [get_all_statuses, add_bot_log, hd, alGet_alSet_self]
    simp [defaultStatus]
  · cases u <;>
      simp only [get_all_statuses, update_bot_status, hd, alGet_alSet_self]
  · simp only [get_all_statuses, increment_processed_count, hd, alGet_alSet_self]
    simp [defaultStatus]

/-- Claim C10 witness: the contract instantiated on the fresh manager
state and identity `"A"`. -/
theorem untouched_identity_default_records_witness :
    get_bot_status initMState ("A") = none ∧
    alGet (get_all_statuses (add_bot_log initMState ("A") ("m") ("info") ("t"))) ("A") =
      some { defaultStatus with
               logs := [{ timestamp := "t", level := "info", message := "m" }] } ∧
    alGet (get_all_statuses (increment_processed_count initMState ("A"))) ("A") =
      some { defaultStatus with processed_count := 1 } :=
  ⟨(untouched_identity_default_records initMState ("A") ("m") ("info") ("t")
      ("Running") (some 2) rfl).1,
   (untouched_identity_default_records initMState ("A") ("m") ("info") ("t")
      ("Running") (some 2) rfl).2.1,
   (untouched_identity_default_records initMState ("A") ("m") ("info") ("t")
      ("Running") (some 2) rfl).2.2.2⟩

/-- `(String.mk x).data = x`. -/
theorem data_mk (x : Chars) : (String.mk x).data = x := rfl

/-- The ordered guard/handler pairs of `process_text_message` (rules 1–6;
rule 7, general FAQ, is the chain's default). -/
def classifierRules (env : ProcEnv) (kw : Keywords) (contact_id salutation : String) :
    List ((String → Bool) × (String → ConvResult)) :=
  [(fun m => is_pure_greeting kw m.data, fun _ => handle_greeting env salutation),
   (fun m => is_satisfied_response kw m.data, fun _ => handle_acknowledgment env salutation),
   (fun m => is_paypal_query kw m.data, fun _ => handle_paypal_query salutation),
   (fun m => is_publication_query kw m.data, fun m => handle_publication_query env salutation m),
   (fun m => is_remittance_query kw m.data, fun _ => handle_remittance_query salutation),
   (fun m => is_student_specific_query m.data, fun m => handle_student_query env kw m contact_id salutation)]

/-- Claim C1 counterexample: `"hi paypal article"` matches both a PayPal
phrase and a publication phrase, yet the pipeline classifies it as
`greeting` (the greeting rule precedes rule 3), so the unguarded "any
message matching both a PayPal phrase and a publication phrase is
classified PayPal" is false. -/
theorem paypal_priority_counterexample :
    is_paypal_query defaultKeywords ("hi paypal article").data = true ∧
    is_publication_query defaultKeywords ("hi paypal article").data = true ∧
    (process_text_message constProcEnv defaultKeywords ("hi paypal article") ("id")
        ("nm") ("Student") []).category = "greeting" ∧
    ("greeting" : String) ≠ "payment" := by decide

/-- Claim C1 (amended): the classifier is the fixed-priority rule chain
greeting, acknowledgment, PayPal, publication, remittance,
student-specific, with general FAQ as default — the first matching rule
determines the result and later rules are not evaluated (`firstMatch`) —
and a message matching both a PayPal phrase and a publication phrase is
classified PayPal **provided neither the greeting rule nor the
acknowledgment rule matches it**. -/
theorem classifier_fixed_priority_rule_chain (env : ProcEnv) (kw : Keywords)
    (message contact_id contact_name salutation : String)
    (ctx : List (String × String)) :
    process_text_message env kw message contact_id contact_name salutation ctx =
      firstMatch (classifierRules env kw contact_id salutation)
        (fun m => handle_faq_query env m salutation ctx)
        (String.mk (pyStrip message.data)) ∧
    (is_pure_greeting kw (pyStrip message.data) = false →
      is_satisfied_response kw (pyStrip message.data) = false →
      is_paypal_query kw (pyStrip message.data) = true →
      is_publication_query kw (pyStrip message.data) = true →
      (process_text_message env kw message contact_id contact_name salutation
          ctx).category = "payment") := by
  have hchain : process_text_message env kw message contact_id contact_name salutation ctx =
      firstMatch (classifierRules env kw contact_id salutation)
        (fun m => handle_faq_query env m salutation ctx)
        (String.mk (pyStrip message.data)) := rfl
  refine ⟨hchain, fun h1 h2 h3 _h4 => ?_⟩
  rw [hchain]
  simp [firstMatch, classifierRules, data_mk, h1, h2, h3, handle_paypal_query]

/-- Claim C1 witness: a message matching PayPal and publication phrases
but neither the greeting nor the acknowledgment rule is classified
PayPal. -/
theorem classifier_fixed_priority_rule_chain_witness :
    (process_text_message constProcEnv defaultKeywords
        ("please send paypal article details") ("id") ("nm") ("Student")
        []).category = "payment" :=
  (classifier_fixed_priority_rule_chain constProcEnv defaultKeywords
      ("please send paypal article details") ("id") ("nm") ("Student") []).2
    (by decide) (by decide) (by decide) (by decide)

/-- An environment with exactly one chunk surviving the threshold filter,
whose interface tag is `"cms"`. -/
def c2RagEnv : RagEnv where
  storeInit := true
  retrieved := fun _ => [{ question := "Q1", category := "general", interface := "cms" }]
  qaAnswer := fun _ _ => "synthesised"
  qaSourceDocs := fun _ => []

/-- Claim C2 counterexample: one chunk survives the similarity-threshold
filter, but the caller supplies an interface tag matching no chunk; the
code computes the confidence from the post-interface-filter count, giving
0 instead of the claimed `min(1/4, 1.0) * 0.9 = 9/40` — and the result is
not the could-not-find branch either. -/
theorem rag_confidence_counterexample :
    (c2RagEnv.retrieved ("q")).length = 1 ∧
    (ragQuery c2RagEnv ("q") ("Student") (some ("lms"))).2.1 = ragConfidence 0 ∧
    ragConfidence 0 = 0 ∧
    ragConfidence 1 = 9 / 40 ∧
    (0 : ℚ) ≠ 9 / 40 := by
  refine ⟨rfl, rfl, ?_, ?_, by norm_num⟩
  · unfold ragConfidence
    rw [show ((0 : ℕ) : ℚ) / 4 = 0 by norm_num,
      min_eq_left (by norm_num : (0 : ℚ) ≤ 1)]
    norm_num
  · unfold ragConfidence
    rw [show ((1 : ℕ) : ℚ) / 4 = 1 / 4 by norm_num,
      min_eq_left (by norm_num : (1 : ℚ) / 4 ≤ 1)]
    norm_num

/-- Claim C2 (amended): with the vector store initialised, (i) if zero
chunks survive the similarity-threshold filter, the result is the polite
could-not-find message addressed with the caller's salutation, confidence
exactly 0, empty sources; (ii) otherwise the confidence is
`min(m/K, 1.0) * 0.9` with `K = 4`, where `m` is the surviving count
after the **optional interface filter** (equal to the threshold-surviving
count whenever no interface tag is supplied); (iii) the formula is
monotonic non-decreasing in the surviving count; (iv) the returned
confidence never exceeds 0.9. -/
theorem rag_query_confidence (env : RagEnv) (q sal : String) (iface : Option String)
    (hs : env.storeInit = true) :
    (env.retrieved q = [] →
      ragQuery env q sal iface =
        (sal ++ ", I couldn\x27t find specific information about your query. Could you rephrase or provide more details?",
          0, [])) ∧
    (env.retrieved q ≠ [] →
      (ragQuery env q sal iface).2.1 =
        ragConfidence (match iface with
          | some i => ((env.retrieved q).filter
              (fun (d : Doc) => pyLower d.interface.data == pyLower i.data)).length
          | none => (env.retrieved q).length)) ∧
    (∀ n k : Nat, n ≤ k → ragConfidence n ≤ ragConfidence k) ∧
    ragConfidence 0 = 0 ∧
    (ragQuery env q sal iface).2.1 ≤ 9 / 10 := by
  have hconf_le : ∀ n : Nat, ragConfidence n ≤ 9 / 10 := by
    intro n
    unfold ragConfidence
    calc min ((n : ℚ) / 4) 1 * (9 / 10) ≤ 1 * (9 / 10) :=
          mul_le_mul_of_nonneg_right (min_le_right _ _) (by norm_num)
      _ = 9 / 10 := by norm_num
  refine ⟨?_, ?_, ?_, ?_, ?_⟩
  · intro he
    unfold ragQuery
    simp [hs, he]
  · intro hne
    unfold ragQuery
    cases iface <;> simp [hs, hne]
  · intro n k hnk
    unfold ragConfidence
    gcongr
  · unfold ragConfidence
    rw [show ((0 : ℕ) : ℚ) / 4 = 0 by norm_num,
      min_eq_left (by norm_num : (0 : ℚ) ≤ 1)]
    norm_num
  · unfold ragQuery
    by_cases he : (env.retrieved q).isEmpty
    · simp only [hs, he]
      norm_num
    · cases iface <;> simp only [hs, he] <;> simp <;> apply hconf_le

/-- Claim C2 witness: the contract instantiated on concrete environments —
the empty-retrieval branch on `constRagEnv`, the confidence formula on
`c2RagEnv` (no interface tag), and monotonicity at 2 ≤ 3. -/
theorem rag_query_confidence_witness :
    ragQuery constRagEnv ("q") ("Student") none =
      ("Student" ++ ", I couldn\x27t find specific information about your query. Could you rephrase or provide more details?",
        0, []) ∧
    (ragQuery c2RagEnv ("q") ("Student") none).2.1 =
      ragConfidence ((c2RagEnv.retrieved ("q")).length) ∧
    ragConfidence 2 ≤ ragConfidence 3 :=
  ⟨(rag_query_confidence constRagEnv ("q") ("Student") none rfl).1 rfl,
   (rag_query_confidence c2RagEnv ("q") ("Student") none rfl).2.1 (by decide),
   (rag_query_confidence constRagEnv ("q") ("Student") none rfl).2.2.1 2 3
     (by decide)⟩

/-- Claim C5: `stop_bot` (i) fails with no state change when the identity
is unknown to the registry (`self.bots`); (ii) whenever it reports
failure — in particular when the worker is still alive after the join
timeout — the registry bookkeeping (bot entry, thread handle, status
record) is left in place; (iii) only on success does it transition the
status record to `Stopped`, stamp the stop time, and release the bot and
thread handles. -/
theorem stop_bot_contract (s : MState) (id : String) (e : Bool) :
    (alGet s.bots id = none → stop_bot s id e = (false, s)) ∧
    ((stop_bot s id e).1 = false →
      (stop_bot s id e).2.bots = s.bots ∧
      (stop_bot s id e).2.threads = s.threads ∧
      (stop_bot s id e).2.statuses = s.statuses) ∧
    ((stop_bot s id e).1 = true →
      alGet (stop_bot s id e).2.statuses id =
        some { alGetD s.statuses id defaultStatus with
                 status := "Stopped", stop_time := some s.time } ∧
      alGet (stop_bot s id e).2.bots id = none ∧
      alGet (stop_bot s id e).2.threads id = none) := by
  have hfin : ∀ s' : MState, s'.statuses = s.statuses → s'.time = s.time →
      s'.bots = s.bots → s'.threads = s.threads →
      (stopFinish s' id).1 = true ∧
      alGet (stopFinish s' id).2.statuses id =
        some { alGetD s.statuses id defaultStatus with
                 status := "Stopped", stop_time := some s.time } ∧
      alGet (stopFinish s' id).2.bots id = none ∧
      alGet (stopFinish s' id).2.threads id = none := by
    intro s' h1 h2 h3 h4
    refine ⟨rfl, ?_, ?_, ?_⟩
    · show alGet (alSet s'.statuses id _) id = _
      rw [alGet_alSet_self, h1, h2]
    · show alGet (alErase s'.bots id) id = none
      rw [h3]
      exact alGet_alErase_self _ _
    · show alGet (alErase s'.threads id) id = none
      rw [h4]
      exact alGet_alErase_self _ _
  by_cases hb : (alGet s.bots id).isNone
  · have h0 : stop_bot s id e = (false, s) := by
      unfold stop_bot
      simp [hb]
    refine ⟨fun _ => h0, fun _ => ?_, fun ht => ?_⟩
    · rw [h0]
      exact ⟨rfl, rfl, rfl⟩
    · rw [h0] at ht
      simp at ht
  · have hbs : alGet s.bots id ≠ none := by
      simpa [Option.isNone_iff_eq_none] using hb
    rcases hse : alGet s.stopEvents id with _ | eid
    · rcases hth : alGet s.threads id with _ | tuid
      · have h0 : stop_bot s id e = stopFinish s id := by
          unfold stop_bot
          simp [hb, hse, hth]
        have hf := hfin s rfl rfl rfl rfl
        refine ⟨fun hn => absurd hn hbs, fun hff => ?_, fun _ => ?_⟩
        · rw [h0, hf.1] at hff
          simp at hff
        · rw [h0]
          exact hf.2
      · cases e with
        | true =>
          have h0 : stop_bot s id true =
              stopFinish { s with threadAlive := alSet s.threadAlive tuid false } id := by
            unfold stop_bot
            simp [hb, hse, hth, alGetD_alSet]
          have hf := hfin { s with threadAlive := alSet s.threadAlive tuid false }
            rfl rfl rfl rfl
          refine ⟨fun hn => absurd hn hbs, fun hff => ?_, fun _ => ?_⟩
          · rw [h0, hf.1] at hff
            simp at hff
          · rw [h0]
            exact hf.2
        | false =>
          by_cases halive : alGetD s.threadAlive tuid false = true
          · have h0 : stop_bot s id false = (false, s) := by
              unfold stop_bot
              simp [hb, hse, hth, halive]
            refine ⟨fun _ => h0, fun _ => ?_, fun ht => ?_⟩
            · rw [h0]
              exact ⟨rfl, rfl, rfl⟩
            · rw [h0] at ht
              simp at ht
          · have h0 : stop_bot s id false = stopFinish s id := by
              unfold stop_bot
              simp [hb, hse, hth, halive]
            have hf := hfin s rfl rfl rfl rfl
            refine ⟨fun hn => absurd hn hbs, fun hff => ?_, fun _ => ?_⟩
            · rw [h0, hf.1] at hff
              simp at hff
            · rw [h0]
              exact hf.2
    · rcases hth : alGet s.threads id with _ | tuid
      · have h0 : stop_bot s id e =
            stopFinish { s with eventHeap := alSet s.eventHeap eid true } id := by
          unfold stop_bot
          simp [hb, hse, hth]
        have hf := hfin { s with eventHeap := alSet s.eventHeap eid true } rfl rfl rfl rfl
        refine ⟨fun hn => absurd hn hbs, fun hff => ?_, fun _ => ?_⟩
        · rw [h0, hf.1] at hff
          simp at hff
        · rw [h0]
          exact hf.2
      · cases e with
        | true =>
          have h0 : stop_bot s id true =
              stopFinish { s with
                eventHeap := alSet s.eventHeap eid true
                threadAlive := alSet s.threadAlive tuid false } id := by
            unfold stop_bot
            simp [hb, hse, hth, alGetD_alSet]
          have hf := hfin { s with
              eventHeap := alSet s.eventHeap eid true
              threadAlive := alSet s.threadAlive tuid false } rfl rfl rfl rfl
          refine ⟨fun hn => absurd hn hbs, fun hff => ?_, fun _ => ?_⟩
          · rw [h0, hf.1] at hff
            simp at hff
          · rw [h0]
            exact hf.2
        | false =>
          by_cases halive : alGetD s.threadAlive tuid false = true
          · have h0 : stop_bot s id false =
                (false, { s with eventHeap := alSet s.eventHeap eid true }) := by
              unfold stop_bot
              simp [hb, hse, hth, halive]
            refine ⟨fun hn => absurd hn hbs, fun _ => ?_, fun ht => ?_⟩
            · rw [h0]
              exact ⟨rfl, rfl, rfl⟩
            · rw [h0] at ht
              simp at ht
          · have h0 : stop_bot s id false =
                stopFinish { s with eventHeap := alSet s.eventHeap eid true } id := by
              unfold stop_bot
              simp [hb, hse, hth, halive]
            have hf := hfin { s with eventHeap := alSet s.eventHeap eid true }
              rfl rfl rfl rfl
            refine ⟨fun hn => absurd hn hbs, fun hff => ?_, fun _ => ?_⟩
            · rw [h0, hf.1] at hff
              simp at hff
            · rw [h0]
              exact hf.2

/-- Claim C5 witness: the contract exercised on concrete states — an
unknown identity, a stuck worker (join times out: failure, bookkeeping
retained), and a timely exit (success, handles released). -/
theorem stop_bot_contract_witness :
    stop_bot initMState ("A") true = (false, initMState) ∧
    ((stop_bot (start_bot initMState ("A") ("p1")).2 ("A") false).2.bots =
        (start_bot initMState ("A") ("p1")).2.bots ∧
      (stop_bot (start_bot initMState ("A") ("p1")).2 ("A") false).2.threads =
        (start_bot initMState ("A") ("p1")).2.threads ∧
      (stop_bot (start_bot initMState ("A") ("p1")).2 ("A") false).2.statuses =
        (start_bot initMState ("A") ("p1")).2.statuses) ∧
    alGet (stop_bot (start_bot initMState ("A") ("p1")).2 ("A") true).2.bots ("A") = none :=
  ⟨(stop_bot_contract initMState ("A") true).1 rfl,
   (stop_bot_contract (start_bot initMState ("A") ("p1")).2 ("A") false).2.1 (by decide),
   ((stop_bot_contract (start_bot initMState ("A") ("p1")).2 ("A") true).2.2 (by decide)).2.1⟩

/-- Every phrasing drawn by `_handle_greeting` is nonempty, whatever the
salutation and the random draw. -/
theorem greetingChoices_ne_empty (i : Nat) (sal : String) :
    randChoice i (greetingChoices sal) ≠ "" := by
  have hk : i % 3 < 3 := Nat.mod_lt _ (by norm_num)
  unfold randChoice
  rw [show (greetingChoices sal).length = 3 from rfl]
  rcases hm : i % 3 with _ | _ | _ | n
  · simp only [greetingChoices, List.getD_cons_zero]
    intro hc
    have := congrArg String.data hc
    rw [String.data_append] at this
    simp at this
  · simp only [greetingChoices, List.getD_cons_succ, List.getD_cons_zero]
    intro hc
    have := congrArg String.data hc
    rw [String.data_append, String.data_append] at this
    simp at this
  · simp only [greetingChoices, List.getD_cons_succ, List.getD_cons_zero]
    intro hc
    have := congrArg String.data hc
    rw [String.data_append, String.data_append] at this
    simp at this
  · omega

/-- Claim C7: every message whose (lowered, stripped) word-token count is
at most 3, that contains a configured greeting phrase, and that contains
no `?`, is classified `greeting` by the pipeline, with confidence 1.0, a
non-empty response text, and message type `greeting`. -/
theorem pure_greeting_pipeline (env : ProcEnv) (kw : Keywords)
    (msg cid cname sal : String) (ctx : List (String × String))
    (h1 : (wordRuns (pyStrip (pyLower (pyStrip msg.data)))).length ≤ 3)
    (h2 : kw.greetings.any
      (fun g => containsSub g.data (pyStrip (pyLower (pyStrip msg.data)))) = true)
    (h3 : (pyStrip msg.data).contains '?' = false) :
    (process_text_message env kw msg cid cname sal ctx).category = "greeting" ∧
    (process_text_message env kw msg cid cname sal ctx).message_type = "greeting" ∧
    (process_text_message env kw msg cid cname sal ctx).confidence = 1 ∧
    (process_text_message env kw msg cid cname sal ctx).response ≠ "" := by
  have hg : is_pure_greeting kw (pyStrip msg.data) = true := by
    unfold is_pure_greeting
    simp [h1, h2]
    simpa using h3
  have hp : process_text_message env kw msg cid cname sal ctx =
      handle_greeting env sal := by
    unfold process_text_message
    simp only [data_mk, hg, if_true]
  rw [hp]
  exact ⟨rfl, rfl, rfl, greetingChoices_ne_empty env.choice sal⟩

/-- Claim C7 witness: the scenario input `"hi"`. -/
theorem pure_greeting_pipeline_witness :
    (process_text_message constProcEnv defaultKeywords ("hi") ("id") ("nm")
        ("Student") []).category = "greeting" ∧
    (process_text_message constProcEnv defaultKeywords ("hi") ("id") ("nm")
        ("Student") []).message_type = "greeting" ∧
    (process_text_message constProcEnv defaultKeywords ("hi") ("id") ("nm")
        ("Student") []).confidence = 1 ∧
    (process_text_message constProcEnv defaultKeywords ("hi") ("id") ("nm")
        ("Student") []).response ≠ "" :=
  pure_greeting_pipeline constProcEnv defaultKeywords ("hi") ("id") ("nm")
    ("Student") [] (by decide) (by decide) (by decide)

/-- The bounded-log invariant: every identity's log holds at most 50
entries. -/
def LogsBounded (s : MState) : Prop :=
  ∀ id : String, ((alGetD s.statuses id defaultStatus).logs).length ≤ 50

theorem logsBounded_of_alSet (s s' : MState) (h : LogsBounded s) (n : String)
    (v : BotStatus) (hs' : s'.statuses = alSet s.statuses n v)
    (hv : v.logs.length ≤ 50) : LogsBounded s' := by
  intro id
  rw [hs', alGetD_alSet]
  by_cases hid : id = n
  · simpa [hid] using hv
  · simpa [hid] using h id

/-- Every event of the lifecycle model preserves the bounded-log
invariant. -/
theorem logsBounded_step (s : MState) (h : LogsBounded s) (op : MOp) :
    LogsBounded (stepOp s op) := by
  cases op with
  | start n p =>
    show LogsBounded (start_bot s n p).2
    unfold start_bot
    split
    · exact h
    · exact logsBounded_of_alSet s _ h n _ rfl (h n)
  | stop n e =>
    show LogsBounded (stop_bot s n e).2
    unfold stop_bot stopFinish
    split
    · exact h
    · rcases hse : alGet s.stopEvents n with _ | eid <;> simp only [hse] <;>
        rcases hth : alGet s.threads n with _ | tuid <;> simp only [hth]
      · exact logsBounded_of_alSet s _ h n _ rfl (h n)
      · split <;> split <;>
          first | exact h | exact logsBounded_of_alSet s _ h n _ rfl (h n)
      · exact logsBounded_of_alSet s _ h n _ rfl (h n)
      · split <;> split <;>
          first | exact h | exact logsBounded_of_alSet s _ h n _ rfl (h n)
  | addLog n m l ts =>
    show LogsBounded (add_bot_log s n m l ts)
    have hn := h n
    refine logsBounded_of_alSet s _ h n _ rfl ?_
    dsimp only
    split <;> rename_i hx <;>
      simp only [List.length_drop, List.length_append, List.length_cons,
        List.length_nil, gt_iff_lt, not_lt] at hx ⊢ <;>
      omega
  | updateStatus n st u =>
    show LogsBounded (update_bot_status s n st u)
    cases u
    · exact logsBounded_of_alSet s _ h n _ rfl (h n)
    · exact logsBounded_of_alSet s _ h n _ rfl (h n)
  | incProcessed n =>
    show LogsBounded (increment_processed_count s n)
    exact logsBounded_of_alSet s _ h n _ rfl (h n)
  | setDriver t =>
    show LogsBounded (worker_sets_driver s t)
    unfold worker_sets_driver
    rcases hb1 : alGet s.threadBot t with _ | buid <;> simp only [hb1]
    · exact h
    · rcases hb2 : alGet s.botHeap buid with _ | b <;> simp only [hb2]
      · exact h
      · intro id
        exact h id
  | threadExit t =>
    exact h

/-- Claim C8: the per-bot log is bounded at capacity 50 — (i) after any
event sequence from the initial manager state every identity's log holds
at most 50 entries; (ii) appending to a log already holding 50 entries
evicts exactly the oldest entry, keeping the remaining entries in order
followed by the new one. -/
theorem bounded_log_capacity :
    (∀ (ops : List MOp) (id : String),
      ((alGetD (runOps initMState ops).statuses id defaultStatus).logs).length ≤ 50) ∧
    (∀ (s : MState) (id m l ts : String),
      ((alGetD s.statuses id defaultStatus).logs).length = 50 →
      (alGetD (add_bot_log s id m l ts).statuses id defaultStatus).logs =
        ((alGetD s.statuses id defaultStatus).logs).drop 1 ++
          [{ timestamp := ts, level := l, message := m }]) := by
  constructor
  · have hrun : ∀ (ops : List MOp) (s : MState), LogsBounded s →
        LogsBounded (runOps s ops) := by
      intro ops
      induction ops with
      | nil => exact fun s hs => hs
      | cons op rest ih => exact fun s hs => ih _ (logsBounded_step s hs op)
    intro ops id
    refine hrun ops initMState (fun i => ?_) id
    simp [initMState, alGetD, alGet, defaultStatus]
  · intro s id m l ts h50
    show (alGetD (alSet s.statuses id _) id defaultStatus).logs = _
    rw [alGetD_alSet, if_pos rfl]
    dsimp only
    rw [if_pos (by simp [List.length_append, h50])]
    rw [List.drop_append_of_le_length (by omega)]

set_option maxRecDepth 8192 in
/-- Claim C8 witness: 51 appends from the initial state leave at most 50
entries, and the 51st append to a 50-entry log drops exactly the head. -/
theorem bounded_log_capacity_witness :
    ((alGetD (runOps initMState
        (List.replicate 51 (MOp.addLog ("A") ("m") ("info") ("t")))).statuses
      ("A") defaultStatus).logs).length ≤ 50 ∧
    (alGetD (add_bot_log (runOps initMState
        (List.replicate 50 (MOp.addLog ("A") ("m") ("info") ("t"))))
        ("A") ("m2") ("info") ("t2")).statuses ("A") defaultStatus).logs =
      ((alGetD (runOps initMState
        (List.replicate 50 (MOp.addLog ("A") ("m") ("info") ("t")))).statuses
        ("A") defaultStatus).logs).drop 1 ++
        [{ timestamp := "t2", level := "info", message := "m2" }] :=
  ⟨bounded_log_capacity.1 _ _,
   bounded_log_capacity.2 _ ("A") ("m2") ("info") ("t2") (by decide)⟩

/-- The confidence and source components of `RAGEngine.query` do not
depend on the generation model's answer: they are determined by the
store-initialisation flag and the two (index-derived) retrievers. -/
theorem ragQuery_components_congr (r1 r2 : RagEnv) (q sal : String)
    (i : Option String) (h0 : r1.storeInit = r2.storeInit)
    (h1 : r1.retrieved = r2.retrieved) (h2 : r1.qaSourceDocs = r2.qaSourceDocs) :
    (ragQuery r1 q sal i).2 = (ragQuery r2 q sal i).2 := by
  unfold ragQuery
  rw [h0, h1, h2]
  by_cases hs : r2.storeInit <;> by_cases he : (r2.retrieved q).isEmpty <;>
    simp [hs, he]

/-- Claim C9: the FAQ path is deterministic in everything but the
generated answer text — two calls with the identical message, salutation
and context against environments that agree on the vector index (same
threshold retriever and same in-chain retriever; the generation oracle
may answer differently between the calls) produce the same category, the
same source list, and the same confidence. -/
theorem faq_path_deterministic (e1 e2 : ProcEnv) (msg sal : String)
    (ctx : List (String × String))
    (h0 : e1.rag.storeInit = e2.rag.storeInit)
    (h1 : e1.rag.retrieved = e2.rag.retrieved)
    (h2 : e1.rag.qaSourceDocs = e2.rag.qaSourceDocs) :
    (handle_faq_query e1 msg sal ctx).category =
      (handle_faq_query e2 msg sal ctx).category ∧
    (handle_faq_query e1 msg sal ctx).sources =
      (handle_faq_query e2 msg sal ctx).sources ∧
    (handle_faq_query e1 msg sal ctx).confidence =
      (handle_faq_query e2 msg sal ctx).confidence := by
  have hc := ragQuery_components_congr e1.rag e2.rag (enhancedQuery msg ctx) sal
    none h0 h1 h2
  unfold handle_faq_query
  rcases hq1 : ragQuery e1.rag (enhancedQuery msg ctx) sal none with ⟨a1, c1, s1⟩
  rcases hq2 : ragQuery e2.rag (enhancedQuery msg ctx) sal none with ⟨a2, c2, s2⟩
  rw [hq1, hq2] at hc
  obtain ⟨hcc, hss⟩ : c1 = c2 ∧ s1 = s2 := by
    constructor <;> [exact congrArg Prod.fst hc; exact congrArg Prod.snd hc]
  subst hcc
  subst hss
  by_cases hA : c1 ≥ 3 / 4 <;> by_cases hB : c1 ≥ 13 / 20 <;>
    simp [hA, hB]

/-- The single document of the determinism witness's index. -/
def c9Doc : Doc where
  question := "Q1"
  category := "general"
  interface := "general"

/-- First call's environment (generation answers "first answer"). -/
def c9Env1 : ProcEnv :=
  { constProcEnv with
    rag :=
      { storeInit := true
        retrieved := fun _ => [c9Doc]
        qaAnswer := fun _ _ => "first answer"
        qaSourceDocs := fun _ => [c9Doc] } }

/-- Second call's environment: same index, different generated answer. -/
def c9Env2 : ProcEnv :=
  { constProcEnv with
    rag :=
      { storeInit := true
        retrieved := fun _ => [c9Doc]
        qaAnswer := fun _ _ => "second answer"
        qaSourceDocs := fun _ => [c9Doc] } }

/-- Claim C9 witness: two calls over the same index whose generation
oracles answer differently agree on category, sources and confidence. -/
theorem faq_path_deterministic_witness :
    (handle_faq_query c9Env1 ("what is the refund policy") ("Student") []).category =
      (handle_faq_query c9Env2 ("what is the refund policy") ("Student") []).category ∧
    (handle_faq_query c9Env1 ("what is the refund policy") ("Student") []).sources =
      (handle_faq_query c9Env2 ("what is the refund policy") ("Student") []).sources ∧
    (handle_faq_query c9Env1 ("what is the refund policy") ("Student") []).confidence =
      (handle_faq_query c9Env2 ("what is the refund policy") ("Student") []).confidence :=
  faq_path_deterministic c9Env1 c9Env2 ("what is the refund policy") ("Student") []
    rfl rfl rfl

end WABot
